import Mathlib

/-!
Verification of the Numeris-Task invoice backend (Go) against its
natural-language specification, via a shallow embedding of the
domain/validation layer (`internal/service`, `internal/helpers`) and the
persistence layer (`internal/repository`) in Lean 4.

Modelling conventions:
* Go `uuid.UUID` (github.com/google/uuid) is 16 bytes, modelled as a list of
  byte values; `uuid.Nil` is all zeros. `uuid.Parse` is embedded following
  the library's accepted formats (canonical 36-char, urn form, braced form,
  32-char hex).
* SQL `NUMERIC(10,2)` money columns and Go `float64` amounts are modelled as
  exact rationals; the claims under verification only move these values
  around, never compute with them.
* Database-set timestamps are not materialised: tables are lists kept in
  insertion order, which realises `created_at` ordering for a
  single-threaded run (rows are appended, `ORDER BY created_at` ascending is
  list order).
* Driver/connection failures are modelled by an explicit failure oracle
  where a claim concerns them (the invoice-creation transaction); queries
  whose claims concern result values only are modelled as pure functions.
* The nondeterministic generators (`uuid.New`, `helpers.RandomNumber`) are
  passed in explicitly as parameters.
* Go `int32` request parameters are modelled as integers together with an
  explicit wrap-around operation where the code computes on them; a single
  outer wrap is equivalent to wrapping every intermediate `int32` operation
  because reduction mod 2^32 commutes with addition and multiplication.
-/

namespace Numeris

/-- A UUID value (16 bytes), as in github.com/google/uuid. -/
structure UUID where
  bytes : List Nat
deriving DecidableEq, Repr, Inhabited

/-- `uuid.Nil`, the zero UUID. -/
def UUID.nilUUID : UUID := ⟨List.replicate 16 0⟩

/-- Value of a hexadecimal digit character, as in uuid's `xtob`. -/
def hexVal (c : Char) : Option Nat :=
  if '0' ≤ c ∧ c ≤ '9' then some (c.toNat - '0'.toNat)
  else if 'a' ≤ c ∧ c ≤ 'f' then some (c.toNat - 'a'.toNat + 10)
  else if 'A' ≤ c ∧ c ≤ 'F' then some (c.toNat - 'A'.toNat + 10)
  else none

/-- One byte from two hex digit characters (uuid's `xtob`). -/
def xtob (c1 c2 : Char) : Option Nat := do
  let h ← hexVal c1
  let l ← hexVal c2
  pure (16 * h + l)

/-- The byte made of the two hex digit characters at positions `i` and
`i + 1` (uuid's `xtob(s[x], s[x+1])`; an out-of-range read yields a blank,
which is not a hex digit). -/
def hexPairAt (cs : List Char) (i : Nat) : Option Nat :=
  match cs.drop i with
  | c1 :: c2 :: _ => xtob c1 c2
  | _ => none

/-- The positions of the sixteen hex pairs in the canonical
`xxxxxxxx-xxxx-xxxx-xxxx-xxxxxxxxxxxx` form (uuid's offset table). -/
def canonicalOffsets : List Nat :=
  [0, 2, 4, 6, 9, 11, 14, 16, 19, 21, 24, 26, 28, 30, 32, 34]

/-- Parse the canonical 36-character form into 16 bytes: hyphens required at
positions 8, 13, 18, 23 and hex pairs read at the sixteen offsets (the body
of `uuid.Parse` after prefix stripping). -/
def parseCanonical (cs : List Char) : Option (List Nat) :=
  if cs.length = 36 ∧ cs.getD 8 ' ' = '-' ∧ cs.getD 13 ' ' = '-' ∧
      cs.getD 18 ' ' = '-' ∧ cs.getD 23 ' ' = '-' then
    canonicalOffsets.mapM (hexPairAt cs)
  else none

/-- Parse the 32-character hex form (no hyphens) into 16 bytes. -/
def parseHex32 (cs : List Char) : Option (List Nat) :=
  if cs.length = 32 then (List.range 16).mapM (fun i => hexPairAt cs (2 * i))
  else none

/-- `uuid.Parse` (github.com/google/uuid): accepts the canonical 36-character
form, the `urn:uuid:`-prefixed form (case-insensitively), the braced form
(first and last character stripped), and the 32-character raw hex form;
everything else is rejected. -/
def uuidParse (s : String) : Option UUID :=
  let cs := s.data
  if cs.length = 36 then (parseCanonical cs).map UUID.mk
  else if cs.length = 36 + 9 then
    if (cs.take 9).map Char.toLower = "urn:uuid:".data then
      (parseCanonical (cs.drop 9)).map UUID.mk
    else none
  else if cs.length = 36 + 2 then (parseCanonical ((cs.drop 1).take 36)).map UUID.mk
  else if cs.length = 32 then (parseHex32 cs).map UUID.mk
  else none

/-- `models.InvoiceStatusPaid`. -/
def InvoiceStatusPaid : String := "paid"

/-- `models.InvoiceStatusOverDue`. -/
def InvoiceStatusOverDue : String := "overdue"

/-- `models.InvoiceStatusDraft`. -/
def InvoiceStatusDraft : String := "draft"

/-- `models.InvoiceStatusPending`. -/
def InvoiceStatusPending : String := "pending"

/-- `helpers.ValidateInvoiceStatus`: rejects any status string other than the
four recognized constants, with the message `invalid invoice status: <s>`. -/
def ValidateInvoiceStatus (status : String) : Except String Unit :=
  if status ≠ InvoiceStatusPaid ∧ status ≠ InvoiceStatusDraft ∧
      status ≠ InvoiceStatusOverDue ∧ status ≠ InvoiceStatusPending then
    Except.error ("invalid invoice status: " ++ status)
  else
    Except.ok ()

/-- The list of the four recognized invoice status values. -/
def validStatuses : List String :=
  [InvoiceStatusDraft, InvoiceStatusPending, InvoiceStatusPaid, InvoiceStatusOverDue]

/-- Leap-year rule used by Go's `time` package for day-of-month validation. -/
def isLeapYear (y : Nat) : Bool := y % 4 = 0 ∧ (y % 100 ≠ 0 ∨ y % 400 = 0)

/-- Days in a month, as in Go's `time` package (`daysIn`). -/
def daysIn (month year : Nat) : Nat :=
  if month = 2 then (if isLeapYear year then 29 else 28)
  else if month = 4 ∨ month = 6 ∨ month = 9 ∨ month = 11 then 30
  else 31

/-- A calendar date (year, month, day). -/
structure Date where
  year : Nat
  month : Nat
  day : Nat
deriving DecidableEq, Repr, Inhabited

/-- Value of a decimal digit character. -/
def digitVal (c : Char) : Option Nat :=
  if '0' ≤ c ∧ c ≤ '9' then some (c.toNat - '0'.toNat) else none

/-- Go's `time.Parse("2006-01-02", s)`: a four-digit year, a two-digit month
in 1..12 and a two-digit day valid for that month, separated by hyphens, with
nothing before or after; anything else is a parse error. -/
def parseDate (s : String) : Option Date :=
  match s.data with
  | [y1, y2, y3, y4, '-', m1, m2, '-', d1, d2] => do
    let a ← digitVal y1
    let b ← digitVal y2
    let c ← digitVal y3
    let d ← digitVal y4
    let e ← digitVal m1
    let f ← digitVal m2
    let g ← digitVal d1
    let h ← digitVal d2
    let year := 1000 * a + 100 * b + 10 * c + d
    let month := 10 * e + f
    let day := 10 * g + h
    if 1 ≤ month ∧ month ≤ 12 ∧ 1 ≤ day ∧ day ≤ daysIn month year then
      pure ⟨year, month, day⟩
    else none
  | _ => none

/-- `models.User` (database-set timestamps omitted, see module comment). -/
structure User where
  userID : UUID
  username : String
  email : String
  password : String
  firstName : String
  lastName : String
  profilePictureURL : String
  phoneNumber : String
  address : String
deriving DecidableEq, Repr, Inhabited

/-- `models.Customer`. -/
structure Customer where
  customerID : UUID
  name : String
  email : String
  phoneNumber : String
  address : String
deriving DecidableEq, Repr, Inhabited

/-- `models.Invoice`; the money fields are exact rationals (see module
comment), the date fields are parsed calendar dates. -/
structure Invoice where
  invoiceID : UUID
  invoiceNumber : String
  senderID : UUID
  customerID : UUID
  issueDate : Date
  dueDate : Date
  totalAmount : Rat
  discountPercentage : Rat
  discountedAmount : Rat
  finalAmount : Rat
  status : String
  currency : String
  notes : String
deriving DecidableEq, Repr, Inhabited

/-- `models.InvoiceItem`. -/
structure InvoiceItem where
  itemID : UUID
  invoiceID : UUID
  name : String
  description : String
  quantity : Int
  unitPrice : Rat
  totalPrice : Rat
deriving DecidableEq, Repr, Inhabited

/-- `models.UserPaymentMethod`. -/
structure UserPaymentMethod where
  paymentMethodID : UUID
  userID : UUID
  accountName : String
  accountNumber : String
  bankName : String
  bankAddress : String
  swiftCode : String
  isDefault : Bool
deriving DecidableEq, Repr, Inhabited

/-- `models.PaymentInformation`. -/
structure PaymentInformation where
  paymentInfoID : UUID
  invoiceID : UUID
  paymentMethodID : UUID
deriving DecidableEq, Repr, Inhabited

/-- `models.InvoiceActivity`. -/
structure InvoiceActivity where
  activityID : UUID
  invoiceID : UUID
  userID : UUID
  title : String
  description : String
deriving DecidableEq, Repr, Inhabited

/-- `models.RecentActivity`. -/
structure RecentActivity where
  activityID : UUID
  userID : UUID
  title : String
  description : String
deriving DecidableEq, Repr, Inhabited

/-- The relational database state: one list per table of the schema, each
kept in insertion order (see module comment on timestamps). -/
structure DBState where
  users : List User
  customers : List Customer
  userPaymentMethods : List UserPaymentMethod
  invoices : List Invoice
  invoiceItems : List InvoiceItem
  paymentInformation : List PaymentInformation
  invoiceActivities : List InvoiceActivity
  recentActivities : List RecentActivity
deriving DecidableEq, Repr, Inhabited

/-- The invoice-item insertion loop of `invoiceRepoImpl.CreateInvoice`: each
item row is inserted with the invoice's id in its `invoice_id` column
(statement `idx` of the transaction may fail per the failure oracle, aborting
the loop with the driver's error). -/
def insertItemsTx (fails : Nat → Bool) (idx : Nat) (invoiceID : UUID) :
    List InvoiceItem → DBState → Except String DBState
  | [], tx => Except.ok tx
  | item :: rest, tx =>
    if fails idx then Except.error "insert invoice item failed"
    else insertItemsTx fails (idx + 1) invoiceID rest
      { tx with invoiceItems := tx.invoiceItems ++ [{ item with invoiceID := invoiceID }] }

/-- The body of `invoiceRepoImpl.CreateInvoice` between `Begin` and `Commit`:
the transaction's view of the database threads through the statements
(insert invoice — with the `customerID` argument in the `customer_id`
column —, the item loop, insert payment information, insert the
"Invoice Creation" invoice activity, insert the mirrored recent activity),
each of which may fail per the failure oracle; statement 0 is `Begin` and the
last statement is `Commit`. `activityID` stands for the `uuid.New()` drawn
for the two activity rows. -/
def repoCreateInvoiceTx (fails : Nat → Bool) (activityID : UUID) (db : DBState)
    (invoice : Invoice) (items : List InvoiceItem) (customerID : UUID)
    (paymentInfo : PaymentInformation) : Except String (UUID × DBState) :=
  if fails 0 then Except.error "begin failed"
  else if fails 1 then Except.error "insert invoice failed"
  else
    let tx1 : DBState :=
      { db with invoices := db.invoices ++ [{ invoice with customerID := customerID }] }
    match insertItemsTx fails 2 invoice.invoiceID items tx1 with
    | Except.error e => Except.error e
    | Except.ok tx2 =>
      if fails (2 + items.length) then Except.error "insert payment information failed"
      else
        let tx3 : DBState :=
          { tx2 with paymentInformation := (tx2.paymentInformation ++
              [{ paymentInfo with invoiceID := invoice.invoiceID }]) }
        if fails (3 + items.length) then Except.error "insert invoice activity failed"
        else
          let activityDesc := "Created invoice " ++ invoice.invoiceNumber
          let tx4 : DBState :=
            { tx3 with invoiceActivities := (tx3.invoiceActivities ++
                [⟨activityID, invoice.invoiceID, invoice.senderID, "Invoice Creation",
                  activityDesc⟩]) }
          if fails (4 + items.length) then Except.error "insert recent activity failed"
          else
            let tx5 : DBState :=
              { tx4 with recentActivities := (tx4.recentActivities ++
                  [⟨activityID, invoice.senderID, "Invoice Creation", activityDesc⟩]) }
            if fails (5 + items.length) then Except.error "commit failed"
            else Except.ok (invoice.invoiceID, tx5)

/-- `invoiceRepoImpl.CreateInvoice`: runs the transaction; on success the
committed state replaces the database, on any failure the deferred
`tx.Rollback` discards the transaction's writes and the database is left as
it was. Returns the result and the resulting database state. -/
def repoCreateInvoice (fails : Nat → Bool) (activityID : UUID) (db : DBState)
    (invoice : Invoice) (items : List InvoiceItem) (customerID : UUID)
    (paymentInfo : PaymentInformation) : Except String UUID × DBState :=
  match repoCreateInvoiceTx fails activityID db invoice items customerID paymentInfo with
  | Except.ok (id, tx) => (Except.ok id, tx)
  | Except.error e => (Except.error e, db)

/-- The database state after a fully successful invoice creation: the invoice
row (with the `customerID` argument as its customer), all item rows (each
with the invoice's id), the payment-information row, the invoice-activity
row and the mirrored recent-activity row are all appended. -/
def createInvoiceCommitted (activityID : UUID) (db : DBState) (invoice : Invoice)
    (items : List InvoiceItem) (customerID : UUID)
    (paymentInfo : PaymentInformation) : DBState :=
  { db with
    invoices := db.invoices ++ [{ invoice with customerID := customerID }]
    invoiceItems := db.invoiceItems ++
      items.map (fun item => { item with invoiceID := invoice.invoiceID })
    paymentInformation := db.paymentInformation ++
      [{ paymentInfo with invoiceID := invoice.invoiceID }]
    invoiceActivities := db.invoiceActivities ++
      [⟨activityID, invoice.invoiceID, invoice.senderID, "Invoice Creation",
        "Created invoice " ++ invoice.invoiceNumber⟩]
    recentActivities := db.recentActivities ++
      [⟨activityID, invoice.senderID, "Invoice Creation",
        "Created invoice " ++ invoice.invoiceNumber⟩] }

/-- `models.InvoiceDetails`. -/
structure InvoiceDetails where
  invoice : Invoice
  senderName : String
  senderEmail : String
  senderPhoneNumber : String
  senderAddress : String
  customerName : String
  customerEmail : String
  customerPhoneNumber : String
  paymentInformation : UserPaymentMethod
  items : List InvoiceItem
  activities : List InvoiceActivity
deriving DecidableEq, Repr, Inhabited

/-- `invoiceRepoImpl.GetInvoiceDetails`: the main query inner-joins the
invoice with its sender (users) and customer rows — a missing match yields
no row, surfaced as the driver's no-rows error — and LEFT-joins
payment_information and user_payment_methods. When the outer join finds no
payment row, the selected `pm.*` columns are NULL, but the scan targets are
the non-nullable `string` and `uuid.UUID` fields of
`models.UserPaymentMethod`, and pgx v5 refuses to scan SQL NULL into them:
the row scan fails and the function returns that error instead of details
with zeroed payment fields. Items and activities are loaded by separate
queries; activities are ordered by `created_at` ascending, which in this
model is insertion order. `find?` models `QueryRow` taking the first
matching row; `is_default` is not in the select list and keeps its zero
value. -/
def repoGetInvoiceDetails (db : DBState) (invoiceID : UUID) :
    Except String InvoiceDetails :=
  match db.invoices.find? (fun i => decide (i.invoiceID = invoiceID)) with
  | none => Except.error "no rows in result set"
  | some inv =>
    match db.users.find? (fun u => decide (u.userID = inv.senderID)) with
    | none => Except.error "no rows in result set"
    | some sender =>
      match db.customers.find? (fun c => decide (c.customerID = inv.customerID)) with
      | none => Except.error "no rows in result set"
      | some customer =>
        match db.paymentInformation.find? (fun p => decide (p.invoiceID = invoiceID)) with
        | none => Except.error "cannot scan NULL into *string"
        | some pinfo =>
          match db.userPaymentMethods.find?
              (fun m => decide (m.paymentMethodID = pinfo.paymentMethodID)) with
          | none => Except.error "cannot scan NULL into *string"
          | some m =>
            Except.ok
              { invoice := inv
                senderName := sender.firstName ++ " " ++ sender.lastName
                senderEmail := sender.email
                senderPhoneNumber := sender.phoneNumber
                senderAddress := sender.address
                customerName := customer.name
                customerEmail := customer.email
                customerPhoneNumber := customer.phoneNumber
                paymentInformation := { m with isDefault := false }
                items := db.invoiceItems.filter (fun it => decide (it.invoiceID = invoiceID))
                activities :=
                  db.invoiceActivities.filter (fun a => decide (a.invoiceID = invoiceID)) }

/-- SQL `SUM(final_amount)`: NULL over zero rows, the sum otherwise. -/
def sqlSum : List Rat → Option Rat
  | [] => none
  | xs => some (xs.foldl (· + ·) 0)

/-- SQL `COALESCE` on a numeric value. -/
def coalesceRat (x : Option Rat) (d : Rat) : Rat := x.getD d

/-- `invoiceRepoImpl.GetTotalByStatus`: one aggregate row with
`COUNT(*)` and `COALESCE(SUM(final_amount), 0)` over the invoices whose
status equals the argument. The aggregate query always yields exactly one
row, so the only failure mode is a driver error, which is outside this
query's model. -/
def repoGetTotalByStatus (db : DBState) (status : String) : Rat × Int :=
  let rows := db.invoices.filter (fun i => decide (i.status = status))
  (coalesceRat (sqlSum (rows.map (fun i => i.finalAmount))) 0, (rows.length : Int))

/-- `models.InvoiceInfo` (the invoice part of the creation request; dates and
ids arrive as strings). -/
structure InvoiceInfo where
  senderID : String
  issueDate : String
  dueDate : String
  totalAmount : Rat
  discountPercentage : Rat
  discountedAmount : Rat
  finalAmount : Rat
  status : String
  currency : String
  notes : String
deriving DecidableEq, Repr, Inhabited

/-- `models.InvoiceItemDetails`. -/
structure InvoiceItemDetails where
  name : String
  description : String
  quantity : Int
  unitPrice : Rat
  totalPrice : Rat
deriving DecidableEq, Repr, Inhabited

/-- `models.CreateInvoiceRequest`. -/
structure CreateInvoiceRequest where
  invoice : InvoiceInfo
  customerID : String
  paymentMethodID : String
  invoiceItems : List InvoiceItemDetails
deriving DecidableEq, Repr, Inhabited

/-- `models.AddPaymentMethodRequest`. -/
structure AddPaymentMethodRequest where
  userID : String
  accountName : String
  accountNumber : String
  bankName : String
  bankAddress : String
  swiftCode : String
deriving DecidableEq, Repr, Inhabited

/-- The fresh values drawn by `invoiceServiceImpl.CreateInvoice`: the
`uuid.New()` for the invoice, the `helpers.RandomNumber(1000000000,
9999999999)` invoice number, one `uuid.New()` per item (by position), and
the `uuid.New()` for the payment-information row. -/
structure IdGen where
  invoiceID : UUID
  invoiceNumber : String
  itemID : Nat → UUID
  paymentInfoID : UUID

/-- The item-building loop of `invoiceServiceImpl.CreateInvoice`: each
submitted item becomes a row with a fresh id, the new invoice's id, and the
submitted name, description, quantity, unit price and total price. -/
def buildItems (g : IdGen) (invoiceID : UUID) : Nat → List InvoiceItemDetails → List InvoiceItem
  | _, [] => []
  | idx, it :: rest =>
    { itemID := g.itemID idx
      invoiceID := invoiceID
      name := it.name
      description := it.description
      quantity := it.quantity
      unitPrice := it.unitPrice
      totalPrice := it.totalPrice } :: buildItems g invoiceID (idx + 1) rest

/-- The arguments `invoiceServiceImpl.CreateInvoice` hands to
`InvoiceRepository.CreateInvoice`; the service either returns an error (no
repository call is made) or this call descriptor. -/
structure RepoCreateCall where
  invoice : Invoice
  items : List InvoiceItem
  customerID : UUID
  paymentInfo : PaymentInformation
deriving DecidableEq, Repr, Inhabited

/-- `invoiceServiceImpl.CreateInvoice` (domain layer): parses the sender id,
the customer id, validates the status, parses the issue and due dates
(layout `2006-01-02`), builds the invoice and item rows from the request's
values unchanged, parses the payment-method id, and only then calls the
repository — an error at any of these checks is returned immediately and no
repository call happens. -/
def serviceCreateInvoice (g : IdGen) (data : CreateInvoiceRequest) :
    Except String RepoCreateCall :=
  let invoiceID := g.invoiceID
  match uuidParse data.invoice.senderID with
  | none => Except.error "invalid sender id"
  | some senderID =>
    match uuidParse data.customerID with
    | none => Except.error "invalid customer id"
    | some customerID =>
      match ValidateInvoiceStatus data.invoice.status with
      | Except.error e => Except.error e
      | Except.ok _ =>
        match parseDate data.invoice.issueDate with
        | none => Except.error "issue date has invalid date format"
        | some issueDate =>
          match parseDate data.invoice.dueDate with
          | none => Except.error "due date has invalid date format"
          | some dueDate =>
            let invoice : Invoice :=
              { invoiceID := invoiceID
                invoiceNumber := g.invoiceNumber
                senderID := senderID
                customerID := customerID
                issueDate := issueDate
                dueDate := dueDate
                totalAmount := data.invoice.totalAmount
                discountPercentage := data.invoice.discountPercentage
                discountedAmount := data.invoice.discountedAmount
                finalAmount := data.invoice.finalAmount
                status := data.invoice.status
                currency := data.invoice.currency
                notes := data.invoice.notes }
            let items := buildItems g invoiceID 0 data.invoiceItems
            match uuidParse data.paymentMethodID with
            | none => Except.error "invalid payment method id"
            | some paymentMethodID =>
              Except.ok
                ⟨invoice, items, customerID,
                  ⟨g.paymentInfoID, invoiceID, paymentMethodID⟩⟩

/-- `userServiceImpl.AddPaymentMethod` (domain layer): parses the user id —
failing with the (misnamed) error `invalid invoice id` before any repository
call — and otherwise hands the repository the payment-method row built from
the request (`newID` stands for the `uuid.New()` drawn for the row; the
`isDefault` field is not set by the service and stays at its zero value). -/
def serviceAddPaymentMethod (newID : UUID) (data : AddPaymentMethodRequest) :
    Except String UserPaymentMethod :=
  match uuidParse data.userID with
  | none => Except.error "invalid invoice id"
  | some userID =>
    Except.ok
      { paymentMethodID := newID
        userID := userID
        accountName := data.accountName
        accountNumber := data.accountNumber
        bankName := data.bankName
        bankAddress := data.bankAddress
        swiftCode := data.swiftCode
        isDefault := false }

/-- Reduction of an integer into the `int32` range, modelling Go's two's
complement wrap-around. -/
def int32Wrap (x : Int) : Int := (x + 2 ^ 31) % 2 ^ 32 - 2 ^ 31

/-- The limit/offset pair a paginated service operation hands to the
persistence layer. -/
structure PagedCall where
  limit : Int
  offset : Int
deriving DecidableEq, Repr, Inhabited

/-- `invoiceServiceImpl.GetRecentInvoices`: computes
`offset := (page - 1) * limit` in `int32` arithmetic and calls
`InvoiceRepository.GetRecentInvoices(senderID, limit, offset)`. -/
def serviceGetRecentInvoices (senderID : UUID) (page limit : Int) : UUID × PagedCall :=
  let offset := int32Wrap ((page - 1) * limit)
  (senderID, ⟨limit, offset⟩)

/-- `invoiceServiceImpl.GetRecentActivities`: same pagination contract as
`GetRecentInvoices`, against the recent_activities table. -/
def serviceGetRecentActivities (userID : UUID) (page limit : Int) : UUID × PagedCall :=
  let offset := int32Wrap ((page - 1) * limit)
  (userID, ⟨limit, offset⟩)

/-- `invoiceServiceImpl.GetInvoiceActivities`: same pagination contract, for
the activities of one invoice and user. -/
def serviceGetInvoiceActivities (userID invoiceID : UUID) (page limit : Int) :
    (UUID × UUID) × PagedCall :=
  let offset := int32Wrap ((page - 1) * limit)
  ((userID, invoiceID), ⟨limit, offset⟩)

/-- The `limit`/`page` query parameters of an HTTP list request; `none`
models an absent parameter. -/
structure QueryParams where
  limit : Option String
  page : Option String
deriving DecidableEq, Repr, Inhabited

/-- Gin's `ctx.DefaultQuery`: the parameter's value, or the default when the
parameter is absent. -/
def defaultQuery (v : Option String) (d : String) : String := v.getD d

/-- Digits of a decimal literal folded into a number; the empty digit string
is a syntax error. -/
def digitsVal (cs : List Char) : Option Nat :=
  match cs with
  | [] => none
  | _ => cs.foldlM (fun acc c => (digitVal c).map (fun d => acc * 10 + d)) 0

/-- Go's `strconv.ParseInt(s, 10, 32)`: an optional sign followed by at
least one decimal digit, rejected (range error) outside the `int32` range;
the handler only distinguishes success from failure, so both syntax and
range errors are `none`. -/
def goParseInt32 (s : String) : Option Int :=
  let (neg, rest) :=
    match s.data with
    | '-' :: r => (true, r)
    | '+' :: r => (false, r)
    | r => (false, r)
  match digitsVal rest with
  | none => none
  | some n =>
    let v : Int := if neg then -(n : Int) else (n : Int)
    if v < -(2 ^ 31) ∨ v > 2 ^ 31 - 1 then none else some v

/-- `handlerImpl.getPaginationParams`: reads `limit` and `page` with defaults
`"10"` and `"1"`, parses each as a 32-bit integer, and falls back to 10
respectively 1 when parsing fails; parsed values — zero and negatives
included — are returned unmodified, with no clamping and no upper bound. -/
def getPaginationParams (q : QueryParams) : Int × Int :=
  let limitStr := defaultQuery q.limit "10"
  let pageStr := defaultQuery q.page "1"
  let limit : Int :=
    match goParseInt32 limitStr with
    | none => 10
    | some v => v
  let page : Int :=
    match goParseInt32 pageStr with
    | none => 1
    | some v => v
  (limit, page)

/-- Modelled from the spec: the bcrypt primitive
(`golang.org/x/crypto/bcrypt`, called by `helpers.HashPassword` and
`helpers.CheckPassword`) is an external dependency whose source is not part
of this repository. The spec describes a slow adaptive one-way hash with a
fixed default work factor that fails, rather than truncating, on input over
the primitive's maximum supported length (~72 bytes). The generated hash is
modelled as a tagged encoding that commits to the password: this captures
the spec-level algebra — the hash is never the plaintext, comparison
succeeds exactly on the original password — while abstracting the
cryptography. This constant is the tag every generated hash starts with. -/
def bcryptHeader : String := "$2a$10$"

/-- Modelled from the spec: maximum input length supported by the bcrypt
primitive, in bytes. -/
def bcryptMaxLength : Nat := 72

/-- Modelled from the spec: `bcrypt.GenerateFromPassword` — fails on input
longer than 72 bytes, otherwise produces a hash committing to the
password. -/
def bcryptGenerateFromPassword (password : String) : Except String String :=
  if password.utf8ByteSize > bcryptMaxLength then
    Except.error "bcrypt: password length exceeds 72 bytes"
  else Except.ok (bcryptHeader ++ password)

/-- Modelled from the spec: `bcrypt.CompareHashAndPassword` — succeeds
exactly when the hash is the hash of the given password. -/
def bcryptCompareHashAndPassword (hashed password : String) : Except String Unit :=
  if hashed = bcryptHeader ++ password ∧ password.utf8ByteSize ≤ bcryptMaxLength then
    Except.ok ()
  else Except.error "crypto/bcrypt: hashedPassword is not the hash of the given password"

/-- `helpers.HashPassword`: bcrypt-hash the password with the default cost;
on failure return the empty string and a wrapped error. The Go pair
`(string, error)` is modelled as the hash and an optional error message. -/
def HashPassword (password : String) : String × Option String :=
  match bcryptGenerateFromPassword password with
  | Except.error e => ("", some ("failed to hash password: " ++ e))
  | Except.ok h => (h, none)

/-- `helpers.CheckPassword`: compare a plaintext with a hash; `none` means
the passwords match. -/
def CheckPassword (password hashedPassword : String) : Option String :=
  match bcryptCompareHashAndPassword hashedPassword password with
  | Except.error e => some e
  | Except.ok _ => none

/-- A fixed sample UUID used by concrete witnesses. -/
def sampleUUID (n : Nat) : UUID := ⟨List.replicate 15 0 ++ [n]⟩

/-- A sample invoice used by concrete witnesses. -/
def sampleInvoice : Invoice :=
  { invoiceID := sampleUUID 1
    invoiceNumber := "1234567890"
    senderID := sampleUUID 2
    customerID := sampleUUID 3
    issueDate := ⟨2024, 1, 15⟩
    dueDate := ⟨2024, 2, 15⟩
    totalAmount := 10000
    discountPercentage := 10
    discountedAmount := 1000
    finalAmount := 9000
    status := "pending"
    currency := "USD"
    notes := "note" }

/-- A sample invoice item used by concrete witnesses. -/
def sampleItem : InvoiceItem :=
  { itemID := sampleUUID 4
    invoiceID := sampleUUID 1
    name := "item"
    description := "desc"
    quantity := 2
    unitPrice := 4500
    totalPrice := 9000 }

/-- A sample payment-information row used by concrete witnesses. -/
def samplePaymentInfo : PaymentInformation :=
  { paymentInfoID := sampleUUID 5
    invoiceID := sampleUUID 1
    paymentMethodID := sampleUUID 6 }

/-- The empty database. -/
def emptyDB : DBState := ⟨[], [], [], [], [], [], [], []⟩

/-- A sample id generator used by concrete witnesses. -/
def sampleGen : IdGen :=
  { invoiceID := sampleUUID 1
    invoiceNumber := "1234567890"
    itemID := fun n => ⟨List.replicate 14 0 ++ [1, n]⟩
    paymentInfoID := sampleUUID 5 }

/-- A sample valid invoice-creation request used by concrete witnesses. -/
def sampleRequest : CreateInvoiceRequest :=
  { invoice :=
      { senderID := "00000000-0000-0000-0000-000000000002"
        issueDate := "2024-01-15"
        dueDate := "2024-02-15"
        totalAmount := 10000
        discountPercentage := 10
        discountedAmount := 1000
        finalAmount := 9000
        status := "pending"
        currency := "USD"
        notes := "note" }
    customerID := "00000000-0000-0000-0000-000000000003"
    paymentMethodID := "00000000-0000-0000-0000-000000000006"
    invoiceItems := [⟨"item", "desc", 2, 4500, 9000⟩] }

/-- The successful value of an `Except`, with a default for the error case;
used by witnesses to name a computed result without spelling it out. -/
def exceptOkD {ε α : Type} [Inhabited α] : Except ε α → α
  | Except.ok a => a
  | Except.error _ => default

/-- A sample user used by concrete witnesses. -/
def sampleUser : User :=
  { userID := sampleUUID 2
    username := "sender"
    email := "sender@mail.test"
    password := "hashedpw"
    firstName := "Ada"
    lastName := "Lovelace"
    profilePictureURL := ""
    phoneNumber := "123"
    address := "addr" }

/-- A sample customer used by concrete witnesses. -/
def sampleCustomer : Customer :=
  { customerID := sampleUUID 3
    name := "customer"
    email := "customer@mail.test"
    phoneNumber := "456"
    address := "addr2" }

/-- A database holding the sample invoice, its sender and its customer, but
no payment-information row: exercises the outer join. -/
def sampleDBNoPayment : DBState :=
  { emptyDB with
    users := [sampleUser]
    customers := [sampleCustomer]
    invoices := [sampleInvoice] }

/-- A sample payment method owned by the sample user. -/
def samplePaymentMethod : UserPaymentMethod :=
  { paymentMethodID := sampleUUID 6
    userID := sampleUUID 2
    accountName := "acct"
    accountNumber := "0001"
    bankName := "bank"
    bankAddress := "addr"
    swiftCode := "SWIFT"
    isDefault := false }

/-- The same database with the payment-information row and its payment
method present: exercises the matched side of the outer join. -/
def sampleDBWithPayment : DBState :=
  { sampleDBNoPayment with
    userPaymentMethods := [samplePaymentMethod]
    paymentInformation := [samplePaymentInfo] }

/-- A database holding two paid invoices and one pending one, for the
aggregate witness. -/
def sampleDBTotals : DBState :=
  { emptyDB with
    invoices :=
      [{ sampleInvoice with invoiceID := sampleUUID 8, status := "paid", finalAmount := 100 },
       { sampleInvoice with invoiceID := sampleUUID 9, status := "pending", finalAmount := 7 },
       { sampleInvoice with invoiceID := sampleUUID 10, status := "paid", finalAmount := 250 }] }

theorem validateInvoiceStatus_not_mem (s : String) (hmem : s ∉ validStatuses) :
    ValidateInvoiceStatus s = Except.error ("invalid invoice status: " ++ s) := by
  have hand : s ≠ InvoiceStatusPaid ∧ s ≠ InvoiceStatusDraft ∧
      s ≠ InvoiceStatusOverDue ∧ s ≠ InvoiceStatusPending := by
    simp only [validStatuses, List.mem_cons, List.not_mem_nil, or_false, not_or] at hmem
    tauto
  unfold ValidateInvoiceStatus
  rw [if_pos hand]

theorem validateInvoiceStatus_ok_iff (s : String) :
    ValidateInvoiceStatus s = Except.ok () ↔ s ∈ validStatuses := by
  constructor
  · intro h
    by_contra hmem
    rw [validateInvoiceStatus_not_mem s hmem] at h
    exact Except.noConfusion h
  · intro hmem
    have hand : ¬(s ≠ InvoiceStatusPaid ∧ s ≠ InvoiceStatusDraft ∧
        s ≠ InvoiceStatusOverDue ∧ s ≠ InvoiceStatusPending) := by
      simp only [validStatuses, List.mem_cons, List.not_mem_nil, or_false] at hmem
      tauto
    unfold ValidateInvoiceStatus
    rw [if_neg hand]

/-- C5: `ValidateInvoiceStatus` accepts a status string exactly when it is one
of `draft`, `pending`, `paid`, `overdue` (case-sensitively, without
trimming), and every rejected string is named verbatim in the error
message (the message is a fixed text followed by the rejected string). -/
theorem validateInvoiceStatus_cases (s : String) :
    (ValidateInvoiceStatus s = Except.ok () ↔ s ∈ validStatuses) ∧
    (s ∉ validStatuses →
      ValidateInvoiceStatus s = Except.error ("invalid invoice status: " ++ s) ∧
      ∃ pre suf, "invalid invoice status: " ++ s = pre ++ s ++ suf) := by
  refine ⟨validateInvoiceStatus_ok_iff s, fun hmem => ?_⟩
  exact ⟨validateInvoiceStatus_not_mem s hmem, "invalid invoice status: ", "", by simp⟩

/-- Witness for C5 at the boundary inputs called out by the spec: `"PAID"`
(wrong case) and `" paid "` (whitespace) are rejected with the exact string
in the message, while `"paid"` is accepted. -/
theorem validateInvoiceStatus_cases_witness :
    ValidateInvoiceStatus "paid" = Except.ok () ∧
    ValidateInvoiceStatus "PAID" = Except.error "invalid invoice status: PAID" ∧
    ValidateInvoiceStatus " paid " = Except.error "invalid invoice status:  paid " := by
  refine ⟨(validateInvoiceStatus_cases "paid").1.2 (by decide), ?_, ?_⟩
  · exact ((validateInvoiceStatus_cases "PAID").2 (by decide)).1
  · exact ((validateInvoiceStatus_cases " paid ").2 (by decide)).1

theorem insertItemsTx_ok (fails : Nat → Bool) (invoiceID : UUID) :
    ∀ (items : List InvoiceItem) (idx : Nat) (tx tx' : DBState),
      insertItemsTx fails idx invoiceID items tx = Except.ok tx' →
      tx' = { tx with invoiceItems := (tx.invoiceItems ++
        items.map (fun item => { item with invoiceID := invoiceID })) }
  | [], idx, tx, tx', h => by
    simp only [insertItemsTx] at h
    cases h
    simp
  | item :: rest, idx, tx, tx', h => by
    simp only [insertItemsTx] at h
    by_cases hf : fails idx
    · simp [hf] at h
    · simp only [hf, if_false] at h
      have := insertItemsTx_ok fails invoiceID rest (idx + 1) _ _ h
      simp only [this]
      simp

/-- C1: atomicity of invoice creation. For every failure oracle and all
inputs, if any statement of the transaction (begin, any of the inserts, or
the commit) fails, `CreateInvoice` returns an error and the database is
exactly as before — no row of any of the five kinds is persisted; and when
it succeeds it returns the invoice's id and all rows of all five kinds are
persisted together. -/
theorem createInvoice_atomic (fails : Nat → Bool) (activityID : UUID) (db : DBState)
    (invoice : Invoice) (items : List InvoiceItem) (customerID : UUID)
    (paymentInfo : PaymentInformation) :
    ((repoCreateInvoice fails activityID db invoice items customerID paymentInfo).1.isOk = false →
      (repoCreateInvoice fails activityID db invoice items customerID paymentInfo).2 = db) ∧
    (∀ id, (repoCreateInvoice fails activityID db invoice items customerID paymentInfo).1 =
        Except.ok id →
      id = invoice.invoiceID ∧
      (repoCreateInvoice fails activityID db invoice items customerID paymentInfo).2 =
        createInvoiceCommitted activityID db invoice items customerID paymentInfo) := by
  constructor
  · intro herr
    unfold repoCreateInvoice at *
    cases h : repoCreateInvoiceTx fails activityID db invoice items customerID paymentInfo with
    | ok v => simp [h, Except.isOk, Except.toBool] at herr
    | error e => simp [h]
  · intro id hok
    unfold repoCreateInvoice at *
    cases h : repoCreateInvoiceTx fails activityID db invoice items customerID paymentInfo with
    | error e => simp [h] at hok
    | ok v =>
      obtain ⟨id', tx⟩ := v
      simp only [h] at hok ⊢
      cases hok
      unfold repoCreateInvoiceTx at h
      by_cases h0 : fails 0
      · simp [h0] at h
      by_cases h1 : fails 1
      · simp [h0, h1] at h
      simp only [h0, h1, Bool.false_eq_true, if_false, ite_false] at h
      cases hitems : insertItemsTx fails 2 invoice.invoiceID items
        { db with invoices := db.invoices ++ [{ invoice with customerID := customerID }] } with
      | error e => rw [hitems] at h; simp at h
      | ok tx2 =>
        rw [hitems] at h
        have htx2 := insertItemsTx_ok fails invoice.invoiceID items 2 _ _ hitems
        by_cases h2 : fails (2 + items.length)
        · simp [h2] at h
        by_cases h3 : fails (3 + items.length)
        · simp [h2, h3] at h
        by_cases h4 : fails (4 + items.length)
        · simp [h2, h3, h4] at h
        by_cases h5 : fails (5 + items.length)
        · simp [h2, h3, h4, h5] at h
        simp only [h2, h3, h4, h5, ite_false, Bool.false_eq_true, Except.ok.injEq,
          Prod.mk.injEq] at h
        obtain ⟨hid, htx⟩ := h
        subst htx2
        constructor
        · exact hid.symm
        · rw [← htx]
          simp [createInvoiceCommitted]

/-- Witness for C1: with an oracle that fails the payment-information insert
(statement index 3 for a one-item invoice), creation on the empty database
leaves the database empty; with the all-succeeding oracle it commits all
five kinds of rows. -/
theorem createInvoice_atomic_witness :
    (repoCreateInvoice (fun n => n == 3) (sampleUUID 7) emptyDB sampleInvoice
      [sampleItem] (sampleUUID 3) samplePaymentInfo).2 = emptyDB ∧
    (repoCreateInvoice (fun _ => false) (sampleUUID 7) emptyDB sampleInvoice
      [sampleItem] (sampleUUID 3) samplePaymentInfo).2 =
      createInvoiceCommitted (sampleUUID 7) emptyDB sampleInvoice [sampleItem]
        (sampleUUID 3) samplePaymentInfo := by
  constructor
  · exact (createInvoice_atomic (fun n => n == 3) (sampleUUID 7) emptyDB sampleInvoice
      [sampleItem] (sampleUUID 3) samplePaymentInfo).1 (by decide)
  · exact ((createInvoice_atomic (fun _ => false) (sampleUUID 7) emptyDB sampleInvoice
      [sampleItem] (sampleUUID 3) samplePaymentInfo).2 sampleInvoice.invoiceID (by rfl)).2

/-- C2: validation order of invoice creation. The domain layer checks, in
this order: the sender id parses (else `invalid sender id`), the customer id
parses (else `invalid customer id`), the status is one of the four enum
values (else `invalid invoice status: <s>`), the issue date matches the
calendar-date layout (else `issue date has invalid date format`), the due
date matches it (else `due date has invalid date format`), and the
payment-method id parses (else `invalid payment method id`); the first
failing check determines the returned error, and an error return means no
repository call is made (the service only yields a `RepoCreateCall` on
success). -/
theorem serviceCreateInvoice_validation_order (g : IdGen) (data : CreateInvoiceRequest) :
    (uuidParse data.invoice.senderID = none →
      serviceCreateInvoice g data = Except.error "invalid sender id") ∧
    (∀ sid, uuidParse data.invoice.senderID = some sid →
      uuidParse data.customerID = none →
      serviceCreateInvoice g data = Except.error "invalid customer id") ∧
    (∀ sid cid, uuidParse data.invoice.senderID = some sid →
      uuidParse data.customerID = some cid →
      data.invoice.status ∉ validStatuses →
      serviceCreateInvoice g data =
        Except.error ("invalid invoice status: " ++ data.invoice.status)) ∧
    (∀ sid cid, uuidParse data.invoice.senderID = some sid →
      uuidParse data.customerID = some cid →
      data.invoice.status ∈ validStatuses →
      parseDate data.invoice.issueDate = none →
      serviceCreateInvoice g data = Except.error "issue date has invalid date format") ∧
    (∀ sid cid dIssue, uuidParse data.invoice.senderID = some sid →
      uuidParse data.customerID = some cid →
      data.invoice.status ∈ validStatuses →
      parseDate data.invoice.issueDate = some dIssue →
      parseDate data.invoice.dueDate = none →
      serviceCreateInvoice g data = Except.error "due date has invalid date format") ∧
    (∀ sid cid dIssue dDue, uuidParse data.invoice.senderID = some sid →
      uuidParse data.customerID = some cid →
      data.invoice.status ∈ validStatuses →
      parseDate data.invoice.issueDate = some dIssue →
      parseDate data.invoice.dueDate = some dDue →
      uuidParse data.paymentMethodID = none →
      serviceCreateInvoice g data = Except.error "invalid payment method id") := by
  refine ⟨?_, ?_, ?_, ?_, ?_, ?_⟩
  · intro h1
    simp [serviceCreateInvoice, h1]
  · intro sid h1 h2
    simp [serviceCreateInvoice, h1, h2]
  · intro sid cid h1 h2 hst
    have hv := validateInvoiceStatus_not_mem data.invoice.status hst
    simp [serviceCreateInvoice, h1, h2, hv]
  · intro sid cid h1 h2 hst h3
    have hv := (validateInvoiceStatus_ok_iff data.invoice.status).2 hst
    simp [serviceCreateInvoice, h1, h2, hv, h3]
  · intro sid cid dIssue h1 h2 hst h3 h4
    have hv := (validateInvoiceStatus_ok_iff data.invoice.status).2 hst
    simp [serviceCreateInvoice, h1, h2, hv, h3, h4]
  · intro sid cid dIssue dDue h1 h2 hst h3 h4 h5
    have hv := (validateInvoiceStatus_ok_iff data.invoice.status).2 hst
    simp [serviceCreateInvoice, h1, h2, hv, h3, h4, h5]

/-- Witness for C2: a request whose sender id does not parse is rejected
with `invalid sender id`; one that passes the sender and customer checks but
carries the status `"PAID"` is rejected with the status error; one whose
issue date is `"15-01-2024"` (wrong layout) is rejected with the
issue-date error. -/
theorem serviceCreateInvoice_validation_order_witness :
    serviceCreateInvoice sampleGen
      { sampleRequest with invoice := { sampleRequest.invoice with senderID := "bad" } } =
      Except.error "invalid sender id" ∧
    serviceCreateInvoice sampleGen
      { sampleRequest with invoice := { sampleRequest.invoice with status := "PAID" } } =
      Except.error "invalid invoice status: PAID" ∧
    serviceCreateInvoice sampleGen
      { sampleRequest with invoice := { sampleRequest.invoice with issueDate := "15-01-2024" } } =
      Except.error "issue date has invalid date format" := by
  refine ⟨?_, ?_, ?_⟩
  · exact (serviceCreateInvoice_validation_order sampleGen _).1 (by decide)
  · exact (serviceCreateInvoice_validation_order sampleGen _).2.2.1
      (sampleUUID 2) (sampleUUID 3) (by decide) (by decide) (by decide)
  · exact (serviceCreateInvoice_validation_order sampleGen _).2.2.2.1
      (sampleUUID 2) (sampleUUID 3) (by decide) (by decide) (by decide) (by decide)

theorem insertItemsTx_noFail (invoiceID : UUID) :
    ∀ (items : List InvoiceItem) (idx : Nat) (tx : DBState),
      insertItemsTx (fun _ => false) idx invoiceID items tx =
        Except.ok { tx with invoiceItems := (tx.invoiceItems ++
          items.map (fun item => { item with invoiceID := invoiceID })) }
  | [], idx, tx => by simp [insertItemsTx]
  | item :: rest, idx, tx => by
    simp only [insertItemsTx, Bool.false_eq_true, if_false]
    rw [insertItemsTx_noFail invoiceID rest (idx + 1)]
    simp

theorem repoCreateInvoice_noFail (activityID : UUID) (db : DBState) (invoice : Invoice)
    (items : List InvoiceItem) (customerID : UUID) (paymentInfo : PaymentInformation) :
    repoCreateInvoice (fun _ => false) activityID db invoice items customerID paymentInfo =
      (Except.ok invoice.invoiceID,
        createInvoiceCommitted activityID db invoice items customerID paymentInfo) := by
  unfold repoCreateInvoice repoCreateInvoiceTx
  simp only [Bool.false_eq_true, if_false, ite_false]
  rw [insertItemsTx_noFail]
  simp [createInvoiceCommitted]

theorem buildItems_map_totalPrice (g : IdGen) (invoiceID : UUID) :
    ∀ (idx : Nat) (l : List InvoiceItemDetails),
      (buildItems g invoiceID idx l).map (fun item => item.totalPrice) =
        l.map (fun d => d.totalPrice)
  | idx, [] => by simp [buildItems]
  | idx, it :: rest => by
    simp only [buildItems, List.map_cons]
    rw [buildItems_map_totalPrice g invoiceID (idx + 1) rest]

theorem serviceCreateInvoice_ok_spec (g : IdGen) (data : CreateInvoiceRequest)
    (call : RepoCreateCall) (h : serviceCreateInvoice g data = Except.ok call) :
    call.invoice.totalAmount = data.invoice.totalAmount ∧
    call.invoice.discountPercentage = data.invoice.discountPercentage ∧
    call.invoice.discountedAmount = data.invoice.discountedAmount ∧
    call.invoice.finalAmount = data.invoice.finalAmount ∧
    call.items = buildItems g g.invoiceID 0 data.invoiceItems := by
  simp only [serviceCreateInvoice] at h
  cases hs : uuidParse data.invoice.senderID with
  | none => simp [hs] at h
  | some sid =>
    simp only [hs] at h
    cases hc : uuidParse data.customerID with
    | none => simp [hc] at h
    | some cid =>
      simp only [hc] at h
      cases hv : ValidateInvoiceStatus data.invoice.status with
      | error e => simp [hv] at h
      | ok u =>
        cases u
        simp only [hv] at h
        cases hi : parseDate data.invoice.issueDate with
        | none => simp [hi] at h
        | some dIssue =>
          simp only [hi] at h
          cases hd : parseDate data.invoice.dueDate with
          | none => simp [hd] at h
          | some dDue =>
            simp only [hd] at h
            cases hp : uuidParse data.paymentMethodID with
            | none => simp [hp] at h
            | some pid =>
              simp only [hp, Except.ok.injEq] at h
              subst h
              simp

/-- C7: trusted client-computed amounts. For every request the domain layer
accepts, the invoice row persisted by the repository carries exactly the
request's total amount, discount percentage, discounted amount and final
amount — the system never recomputes the final amount from total and
discount — and each persisted item row carries exactly the submitted total
price, never recomputed from quantity times unit price. -/
theorem createInvoice_amounts_passthrough (g : IdGen) (data : CreateInvoiceRequest)
    (db : DBState) (activityID : UUID) (call : RepoCreateCall)
    (h : serviceCreateInvoice g data = Except.ok call) :
    ∃ row rows,
      (repoCreateInvoice (fun _ => false) activityID db call.invoice call.items
        call.customerID call.paymentInfo).2.invoices = db.invoices ++ [row] ∧
      row.totalAmount = data.invoice.totalAmount ∧
      row.discountPercentage = data.invoice.discountPercentage ∧
      row.discountedAmount = data.invoice.discountedAmount ∧
      row.finalAmount = data.invoice.finalAmount ∧
      (repoCreateInvoice (fun _ => false) activityID db call.invoice call.items
        call.customerID call.paymentInfo).2.invoiceItems = db.invoiceItems ++ rows ∧
      rows.map (fun r => r.totalPrice) = data.invoiceItems.map (fun d => d.totalPrice) := by
  obtain ⟨ht, hdp, hda, hf, hitems⟩ := serviceCreateInvoice_ok_spec g data call h
  rw [repoCreateInvoice_noFail]
  refine ⟨{ call.invoice with customerID := call.customerID },
    call.items.map (fun item => { item with invoiceID := call.invoice.invoiceID }),
    ?_, ht, hdp, hda, hf, ?_, ?_⟩
  · simp [createInvoiceCommitted]
  · simp [createInvoiceCommitted]
  · rw [List.map_map]
    have : ((fun r : InvoiceItem => r.totalPrice) ∘
        (fun item : InvoiceItem => { item with invoiceID := call.invoice.invoiceID })) =
        fun item : InvoiceItem => item.totalPrice := rfl
    rw [this, hitems, buildItems_map_totalPrice]

/-- Witness for C7: the sample request (final amount 9000, one item of total
price 9000) persists rows carrying exactly those values. -/
theorem createInvoice_amounts_passthrough_witness :
    ∃ row rows,
      (repoCreateInvoice (fun _ => false) (sampleUUID 7) emptyDB
        (exceptOkD (serviceCreateInvoice sampleGen sampleRequest)).invoice
        (exceptOkD (serviceCreateInvoice sampleGen sampleRequest)).items
        (exceptOkD (serviceCreateInvoice sampleGen sampleRequest)).customerID
        (exceptOkD (serviceCreateInvoice sampleGen sampleRequest)).paymentInfo).2.invoices =
        emptyDB.invoices ++ [row] ∧
      row.totalAmount = sampleRequest.invoice.totalAmount ∧
      row.discountPercentage = sampleRequest.invoice.discountPercentage ∧
      row.discountedAmount = sampleRequest.invoice.discountedAmount ∧
      row.finalAmount = sampleRequest.invoice.finalAmount ∧
      (repoCreateInvoice (fun _ => false) (sampleUUID 7) emptyDB
        (exceptOkD (serviceCreateInvoice sampleGen sampleRequest)).invoice
        (exceptOkD (serviceCreateInvoice sampleGen sampleRequest)).items
        (exceptOkD (serviceCreateInvoice sampleGen sampleRequest)).customerID
        (exceptOkD (serviceCreateInvoice sampleGen sampleRequest)).paymentInfo).2.invoiceItems =
        emptyDB.invoiceItems ++ rows ∧
      rows.map (fun r => r.totalPrice) =
        sampleRequest.invoiceItems.map (fun d => d.totalPrice) :=
  createInvoice_amounts_passthrough sampleGen sampleRequest emptyDB (sampleUUID 7)
    (exceptOkD (serviceCreateInvoice sampleGen sampleRequest)) (by rfl)

/-- C3 (code bug): the payment join of `GetInvoiceDetails` is an outer join,
but the scan defeats it. For every database in which the requested invoice
exists (with its sender and customer rows) and no payment-information row
references it, the LEFT JOIN yields NULL payment columns which the driver
cannot scan into the non-nullable fields of `models.UserPaymentMethod`, so
fetching the details returns an error — not, as the claim states, details
with nulled payment fields. The outer join itself shows the claimed
tolerance was the intent; the scan targets are the slip. -/
theorem getInvoiceDetails_absent_payment_errors (db : DBState) (invoiceID : UUID)
    (inv : Invoice) (sender : User) (customer : Customer)
    (hinv : db.invoices.find? (fun i => decide (i.invoiceID = invoiceID)) = some inv)
    (hs : db.users.find? (fun u => decide (u.userID = inv.senderID)) = some sender)
    (hc : db.customers.find? (fun c => decide (c.customerID = inv.customerID)) = some customer)
    (hp : db.paymentInformation.find? (fun p => decide (p.invoiceID = invoiceID)) = none) :
    repoGetInvoiceDetails db invoiceID = Except.error "cannot scan NULL into *string" := by
  simp only [repoGetInvoiceDetails, hinv, hs, hc, hp]

/-- Witness for C3: on the sample database whose invoice, sender and
customer exist but which has no payment-information row, the fetch errors;
on the same database with the payment row and its method present, it
succeeds. -/
theorem getInvoiceDetails_absent_payment_errors_witness :
    repoGetInvoiceDetails sampleDBNoPayment (sampleUUID 1) =
      Except.error "cannot scan NULL into *string" ∧
    (repoGetInvoiceDetails sampleDBWithPayment (sampleUUID 1)).isOk = true := by
  constructor
  · exact getInvoiceDetails_absent_payment_errors sampleDBNoPayment (sampleUUID 1)
      sampleInvoice sampleUser sampleCustomer (by decide) (by decide) (by decide) (by decide)
  · rfl

/-- C6: `GetTotalByStatus` aggregates without erroring. For every status in
the four-value enum, a table with no invoice of that status yields total 0
and count 0 (the `COALESCE` collapses SQL's NULL sum), and in general the
result is the sum of the final amounts of the k matching invoices together
with the count k. -/
theorem getTotalByStatus_sum (db : DBState) (status : String)
    (_hst : status ∈ validStatuses) :
    (db.invoices.filter (fun i => decide (i.status = status)) = [] →
      repoGetTotalByStatus db status = (0, 0)) ∧
    repoGetTotalByStatus db status =
      (((db.invoices.filter (fun i => decide (i.status = status))).map
          (fun i => i.finalAmount)).foldl (· + ·) 0,
        ((db.invoices.filter (fun i => decide (i.status = status))).length : Int)) := by
  constructor
  · intro hempty
    simp [repoGetTotalByStatus, hempty, sqlSum, coalesceRat]
  · simp only [repoGetTotalByStatus]
    cases hrows : db.invoices.filter (fun i => decide (i.status = status)) with
    | nil => simp [sqlSum, coalesceRat]
    | cons a l => simp [sqlSum, coalesceRat]

/-- Witness for C6: on the empty table every enum status totals to (0, 0);
on the sample table with two paid invoices of final amounts 100 and 250,
status `paid` totals to (350, 2). -/
theorem getTotalByStatus_sum_witness :
    repoGetTotalByStatus emptyDB "draft" = (0, 0) ∧
    repoGetTotalByStatus emptyDB "paid" = (0, 0) ∧
    repoGetTotalByStatus sampleDBTotals "paid" = (350, 2) := by
  refine ⟨(getTotalByStatus_sum emptyDB "draft" (by decide)).1 (by decide),
    (getTotalByStatus_sum emptyDB "paid" (by decide)).1 (by decide), ?_⟩
  have h := (getTotalByStatus_sum sampleDBTotals "paid" (by decide)).2
  rw [h]
  have hpp : decide (("pending" : String) = "paid") = false := rfl
  have hdd : decide (("paid" : String) = "paid") = true := rfl
  norm_num [sampleDBTotals, sampleInvoice, List.filter, hpp, hdd]

/-- C4: the 1-indexed page / page-size contract. For every sender or user
identifier, page `p ≥ 1` and limit `l` (all `int32` values whose offset
product is representable), each of the three paginated service operations
passes the caller's limit unchanged and the zero-based offset
`(p - 1) * l` to the persistence layer; in particular page 1 yields offset
0 and page 2 with limit 10 yields offset 10. -/
theorem pagination_offset (senderID userID invoiceID : UUID) (page limit : Int)
    (_hp1 : 1 ≤ page) (_hp2 : page ≤ 2147483647)
    (_hl1 : -2147483648 ≤ limit) (_hl2 : limit ≤ 2147483647)
    (ho1 : -2147483648 ≤ (page - 1) * limit) (ho2 : (page - 1) * limit ≤ 2147483647) :
    serviceGetRecentInvoices senderID page limit =
      (senderID, ⟨limit, (page - 1) * limit⟩) ∧
    serviceGetRecentActivities userID page limit =
      (userID, ⟨limit, (page - 1) * limit⟩) ∧
    serviceGetInvoiceActivities userID invoiceID page limit =
      ((userID, invoiceID), ⟨limit, (page - 1) * limit⟩) := by
  have hwrap : int32Wrap ((page - 1) * limit) = (page - 1) * limit := by
    unfold int32Wrap
    omega
  exact ⟨by simp [serviceGetRecentInvoices, hwrap],
    by simp [serviceGetRecentActivities, hwrap],
    by simp [serviceGetInvoiceActivities, hwrap]⟩

/-- Witness for C4: page 2 with limit 10 requests offset 10, and page 1
(limit 7) requests offset 0. -/
theorem pagination_offset_witness :
    serviceGetRecentInvoices (sampleUUID 2) 2 10 = (sampleUUID 2, ⟨10, 10⟩) ∧
    serviceGetRecentInvoices (sampleUUID 2) 1 7 = (sampleUUID 2, ⟨7, 0⟩) := by
  constructor
  · have h := (pagination_offset (sampleUUID 2) (sampleUUID 2) (sampleUUID 2) 2 10
      (by decide) (by decide) (by decide) (by decide) (by decide) (by decide)).1
    simpa using h
  · have h := (pagination_offset (sampleUUID 2) (sampleUUID 2) (sampleUUID 2) 1 7
      (by decide) (by decide) (by decide) (by decide) (by decide) (by decide)).1
    simpa using h

/-- C9: pagination-parameter handling at the HTTP boundary. An absent or
unparsable `limit` falls back to 10 and an absent or unparsable `page`
falls back to 1; every value that parses as a 32-bit integer — zero and
negatives included — is returned unmodified, with no clamping and no upper
bound, and the service layer hands the limit unchanged to the persistence
layer. -/
theorem getPaginationParams_spec (q : QueryParams) :
    ((q.limit = none ∨ ∃ s, q.limit = some s ∧ goParseInt32 s = none) →
      (getPaginationParams q).1 = 10) ∧
    ((q.page = none ∨ ∃ s, q.page = some s ∧ goParseInt32 s = none) →
      (getPaginationParams q).2 = 1) ∧
    (∀ s v, q.limit = some s → goParseInt32 s = some v → (getPaginationParams q).1 = v) ∧
    (∀ s v, q.page = some s → goParseInt32 s = some v → (getPaginationParams q).2 = v) ∧
    (∀ senderID page limit,
      (serviceGetRecentInvoices senderID page limit).2.limit = limit) := by
  refine ⟨?_, ?_, ?_, ?_, fun senderID page limit => rfl⟩
  · rintro (h | ⟨s, hs, hparse⟩)
    · obtain ⟨ql, qp⟩ := q
      cases h
      rfl
    · simp [getPaginationParams, defaultQuery, hs, hparse]
  · rintro (h | ⟨s, hs, hparse⟩)
    · obtain ⟨ql, qp⟩ := q
      cases h
      rfl
    · simp [getPaginationParams, defaultQuery, hs, hparse]
  · intro s v hs hparse
    simp [getPaginationParams, defaultQuery, hs, hparse]
  · intro s v hs hparse
    simp [getPaginationParams, defaultQuery, hs, hparse]

/-- Witness for C9: absent parameters default to (10, 1); the non-numeric
`"abc"` defaults; `"0"` and `"-5"` pass through unmodified. -/
theorem getPaginationParams_spec_witness :
    getPaginationParams ⟨none, none⟩ = (10, 1) ∧
    (getPaginationParams ⟨some "abc", some "2"⟩).1 = 10 ∧
    (getPaginationParams ⟨some "0", some "1"⟩).1 = 0 ∧
    (getPaginationParams ⟨some "-5", some "-3"⟩).1 = -5 ∧
    (getPaginationParams ⟨some "-5", some "-3"⟩).2 = -3 := by
  refine ⟨?_, ?_, ?_, ?_, ?_⟩
  · have h1 := (getPaginationParams_spec ⟨none, none⟩).1 (Or.inl rfl)
    have h2 := (getPaginationParams_spec ⟨none, none⟩).2.1 (Or.inl rfl)
    exact Prod.ext h1 h2
  · exact (getPaginationParams_spec ⟨some "abc", some "2"⟩).1
      (Or.inr ⟨"abc", rfl, by decide⟩)
  · exact (getPaginationParams_spec ⟨some "0", some "1"⟩).2.2.1 "0" 0 rfl (by decide)
  · exact (getPaginationParams_spec ⟨some "-5", some "-3"⟩).2.2.1 "-5" (-5) rfl (by decide)
  · exact (getPaginationParams_spec ⟨some "-5", some "-3"⟩).2.2.2.1 "-3" (-3) rfl (by decide)

/-- C10: for every add-payment-method request whose user identifier does not
parse as a UUID, the domain layer fails before any repository call — the
service yields an error, never a repository row — and the error message is
exactly `invalid invoice id`, misnaming the entity (it is the user id that
failed to parse). -/
theorem addPaymentMethod_invalid_user_id (newID : UUID) (data : AddPaymentMethodRequest)
    (h : uuidParse data.userID = none) :
    serviceAddPaymentMethod newID data = Except.error "invalid invoice id" := by
  simp [serviceAddPaymentMethod, h]

/-- Witness for C10: a request with the unparsable user id `"not-a-uuid"`. -/
theorem addPaymentMethod_invalid_user_id_witness :
    serviceAddPaymentMethod (sampleUUID 11)
      ⟨"not-a-uuid", "acct", "0001", "bank", "addr", "SWIFT"⟩ =
      Except.error "invalid invoice id" :=
  addPaymentMethod_invalid_user_id (sampleUUID 11)
    ⟨"not-a-uuid", "acct", "0001", "bank", "addr", "SWIFT"⟩ (by decide)

theorem string_append_left_cancel {s a b : String} (h : s ++ a = s ++ b) : a = b := by
  have hd : (s ++ a).data = (s ++ b).data := congrArg String.data h
  simp only [String.data_append] at hd
  exact String.ext (List.append_cancel_left hd)

/-- C8: the password-hashing round trip. For every password within the
primitive's 72-byte limit, hashing succeeds and the hash differs from the
plaintext; checking the password against its own hash succeeds while any
other plaintext fails; and for every input over the limit, hashing returns
an error together with the empty hash instead of truncating. -/
theorem hashPassword_roundtrip (p other long : String)
    (hlen : p.utf8ByteSize ≤ bcryptMaxLength) (hne : other ≠ p)
    (hlong : bcryptMaxLength < long.utf8ByteSize) :
    (HashPassword p).2 = none ∧
    (HashPassword p).1 ≠ p ∧
    CheckPassword p (HashPassword p).1 = none ∧
    CheckPassword other (HashPassword p).1 ≠ none ∧
    (HashPassword long).1 = "" ∧
    (HashPassword long).2 ≠ none := by
  have hhash : HashPassword p = (bcryptHeader ++ p, none) := by
    simp [HashPassword, bcryptGenerateFromPassword, Nat.not_lt.2 hlen]
  have hlongOut : HashPassword long =
      ("", some ("failed to hash password: " ++ "bcrypt: password length exceeds 72 bytes")) := by
    simp [HashPassword, bcryptGenerateFromPassword, hlong]
  refine ⟨by rw [hhash], ?_, ?_, ?_, by rw [hlongOut], by rw [hlongOut]; simp⟩
  · rw [hhash]
    intro heq
    have hl := congrArg String.length heq
    rw [String.length_append] at hl
    have : bcryptHeader.length = 7 := by decide
    omega
  · rw [hhash]
    simp [CheckPassword, bcryptCompareHashAndPassword, hlen]
  · rw [hhash]
    have hcond : ¬(bcryptHeader ++ p = bcryptHeader ++ other ∧
        other.utf8ByteSize ≤ bcryptMaxLength) := by
      rintro ⟨heq, -⟩
      exact hne (string_append_left_cancel heq).symm
    simp [CheckPassword, bcryptCompareHashAndPassword, if_neg hcond]

/-- Witness for C8 at a concrete password, a different plaintext, and a
73-byte over-limit input. -/
theorem hashPassword_roundtrip_witness :
    (HashPassword "correctPassword123").2 = none ∧
    (HashPassword "correctPassword123").1 ≠ "correctPassword123" ∧
    CheckPassword "correctPassword123" (HashPassword "correctPassword123").1 = none ∧
    CheckPassword "wrongPassword" (HashPassword "correctPassword123").1 ≠ none ∧
    (HashPassword (String.mk (List.replicate 73 'a'))).1 = "" ∧
    (HashPassword (String.mk (List.replicate 73 'a'))).2 ≠ none :=
  hashPassword_roundtrip "correctPassword123" "wrongPassword"
    (String.mk (List.replicate 73 'a')) (by decide) (by decide) (by decide)

end Numeris
